import Mathlib

/-!
# Filament dryer controller: shallow embedding of `main/main.c`

The controller reads a DS1307 real-time clock and an SHT30 temperature sensor
over one I2C bus and switches a heater with a 2 degree hysteresis band below
the target temperature of the selected drying profile.

Modelling conventions.

* `uint8_t` / `uint16_t` values are natural numbers; every place where the C
  code narrows a value to its machine type carries an explicit `% 2^w`.
* `int`, `esp_err_t` and the enumeration `drying_mode_t` are integers.
* `float` values are exact rationals.  Every finite `float` is a rational, the
  comparisons of the thermostat are exact on them, and the profile targets are
  small integers, so `target - 2.0f` is exact as well.  Rounding inside the
  sensor transfer function is not modelled.
* The two globals `active_mode` and `heater_state` form the record
  `dryer_state`; its third field is the trace of observable effects (log
  lines, console output, bus transactions, delays) in the order they occur.
* The I2C bus is the environment: the outcome of a transaction (return code
  and buffer contents) is an input of the function that issues it.
* A table access `drying_profiles[i]` outside the table is undefined behaviour
  in C; the lookup returns `none` there and the enclosing operation returns
  `none` / `loop_outcome.undefined`.
* `ESP_ERROR_CHECK` is the ESP-IDF macro in its default configuration: it
  aborts the process when its argument is not `ESP_OK` and does nothing
  otherwise.
* Each pass of the menu and each pass of the loop body is one atomic step; the
  two tasks interleave at the granularity of whole passes.
-/

namespace FilamentDryer

/-! ## Constants and types -/

/-- The ESP-IDF error code type, a signed integer. -/
abbrev esp_err_t := Int

/-- The ESP-IDF success code. -/
def ESP_OK : esp_err_t := 0

/-- The 7-bit bus address of the SHT30 sensor. -/
def SHT30_SENSOR_ADDR : Nat := 0x44

/-- The 7-bit bus address of the DS1307 clock. -/
def DS1307_ADDR : Nat := 0x68

/-- The seven decoded clock fields (`day` is the weekday, `date` the day of the month). -/
structure ds1307_time_t where
  second : Nat
  minute : Nat
  hour : Nat
  day : Nat
  date : Nat
  month : Nat
  year : Nat
  deriving DecidableEq, Repr

/-- The enumeration `drying_mode_t`; its enumerators are the integers 0 to 5. -/
abbrev drying_mode_t := Int

def MODE_NONE : drying_mode_t := 0
def MODE_PLA : drying_mode_t := 1
def MODE_ABS : drying_mode_t := 2
def MODE_PETG : drying_mode_t := 3
def MODE_TPU : drying_mode_t := 4
def MODE_COUNT : drying_mode_t := 5

/-- One row of the profile table. -/
structure drying_profile_t where
  mode : drying_mode_t
  name : String
  target_temp : ℚ
  deriving DecidableEq, Repr

/-- The static profile table, `MODE_COUNT` rows. -/
def drying_profiles : List drying_profile_t :=
  [ { mode := MODE_NONE, name := "None", target_temp := 0 },
    { mode := MODE_PLA, name := "PLA", target_temp := 50 },
    { mode := MODE_ABS, name := "ABS", target_temp := 80 },
    { mode := MODE_PETG, name := "PETG", target_temp := 70 },
    { mode := MODE_TPU, name := "TPU", target_temp := 60 } ]

/-- The table access `drying_profiles[i]`; `none` outside the table. -/
def profile_at (i : Int) : Option drying_profile_t :=
  if 0 ≤ i then drying_profiles.get? i.toNat else none

/-- Observable effects of the program, in program order. -/
inductive effect_t where
  /-- The log line `ESP_LOGI(TAG, "Heater ON")`. -/
  | log_heater_on
  /-- The log line `ESP_LOGI(TAG, "Heater OFF")`. -/
  | log_heater_off
  /-- One menu line `"  %d. %s (%.1f°C)"`. -/
  | print_menu_item (i : Int) (name : String) (target : ℚ)
  /-- The prompt `"Select mode (1-%d): "`. -/
  | print_prompt (last : Int)
  /-- The log line `ESP_LOGI(TAG, "Selected mode: %s", ...)`. -/
  | log_selected (name : String)
  /-- The warning `ESP_LOGW(TAG, "Invalid selection")`. -/
  | log_invalid_selection
  /-- The line logged by `printTime`. -/
  | log_time (line : String)
  /-- The error line `ESP_LOGE(TAG, "SHT30 read error: %s", ...)`. -/
  | log_sht30_error (ret : esp_err_t)
  /-- The log line `ESP_LOGI(TAG, "Current Temperature: ...")`. -/
  | log_temperature (temperature : ℚ)
  /-- The log line `ESP_LOGI(TAG, "Target Temperature: ... (Mode: %s)", ...)`. -/
  | log_target (target : ℚ) (name : String)
  /-- One call of `i2c_master_write_read_device`. -/
  | i2c_write_read (addr : Nat) (write : List Nat) (read_size : Nat)
  /-- One call of `vTaskDelay(pdMS_TO_TICKS(ms))`. -/
  | task_delay (ms : Nat)
  deriving DecidableEq, Repr

/-- The globals `active_mode` and `heater_state`, and the effects so far. -/
structure dryer_state where
  active_mode : drying_mode_t
  heater_state : Bool
  trace : List effect_t
  deriving DecidableEq, Repr

/-- The globals as initialised at program start. -/
def initial_state : dryer_state :=
  { active_mode := MODE_NONE, heater_state := false, trace := [] }

/-- Appends one effect to the trace. -/
def emit (e : effect_t) (s : dryer_state) : dryer_state :=
  { s with trace := s.trace ++ [e] }

/-! ## Utilities -/

/-- Packed BCD to binary; the result is narrowed to `uint8_t`. -/
def bcd_to_dec (val : Nat) : Nat :=
  ((val / 16) * 10 + (val % 16)) % 256

/-- Binary to packed BCD; the result is narrowed to `uint8_t`. -/
def dec_to_bcd (val : Nat) : Nat :=
  ((val / 10) * 16 + (val % 10)) % 256

/-- Switches the heater on, logging only when it was off. -/
def heater_on (s : dryer_state) : dryer_state :=
  if !s.heater_state then
    { emit .log_heater_on s with heater_state := true }
  else s

/-- Switches the heater off, logging only when it was on. -/
def heater_off (s : dryer_state) : dryer_state :=
  if s.heater_state then
    { emit .log_heater_off s with heater_state := false }
  else s

/-! ## Mode menu -/

/-- The loop of `show_mode_menu` printing rows `1 .. MODE_COUNT - 1` of the table. -/
def print_menu_items (s : dryer_state) : Option dryer_state :=
  (List.range' 1 (MODE_COUNT.toNat - 1)).foldlM
    (fun acc i =>
      (profile_at (i : Int)).map fun p =>
        emit (.print_menu_item (i : Int) p.name p.target_temp) acc)
    s

/-- One pass of the menu.  The argument `scanned` is the integer `scanf` parsed, if any;
`selected` keeps its initial value 0 otherwise. -/
def show_mode_menu (scanned : Option Int) (s : dryer_state) : Option dryer_state := do
  let s1 ← print_menu_items s
  let s2 := emit (.print_prompt (MODE_COUNT - 1)) s1
  let selected : Int := scanned.getD 0
  if selected > 0 ∧ selected < MODE_COUNT then
    let s3 := { s2 with active_mode := selected }
    let p ← profile_at s3.active_mode
    pure (emit (.log_selected p.name) s3)
  else
    pure (emit .log_invalid_selection s2)

/-! ## Bus transactions -/

/-- What one call of `i2c_master_write_read_device` with an `n`-byte read buffer leaves
behind: the return code and the buffer contents. -/
structure i2c_result (n : Nat) where
  ret : esp_err_t
  data : Fin n → Nat

/-- Every byte of the read buffer is a `uint8_t`. -/
def i2c_result.wf {n : Nat} (r : i2c_result n) : Prop :=
  ∀ i, r.data i < 256

/-! ## DS1307 -/

/-- Reads the seven clock registers and decodes them into `time`.  Returns the error code
and the caller's struct as it is after the call. -/
def get_time_from_ds1307 (bus : i2c_result 7) (time : ds1307_time_t) (s : dryer_state) :
    esp_err_t × ds1307_time_t × dryer_state :=
  let s1 := emit (.i2c_write_read DS1307_ADDR [0x00] 7) s
  let ret := bus.ret
  let data := bus.data
  if ret ≠ ESP_OK then (ret, time, s1)
  else
    (ESP_OK,
      { second := bcd_to_dec (data 0 &&& 0x7F),
        minute := bcd_to_dec (data 1),
        hour := bcd_to_dec (data 2),
        day := bcd_to_dec (data 3),
        date := bcd_to_dec (data 4),
        month := bcd_to_dec (data 5),
        year := bcd_to_dec (data 6) },
      s1)

/-- The conversion `%02d` of a non-negative value: at least two digits, zero padded. -/
def fmt_02d (n : Nat) : String :=
  if n < 10 then "0" ++ toString n else toString n

/-- The line `"Time: %02d:%02d:%02d %02d/%02d/20%02d"` of `printTime`. -/
def time_line (time : ds1307_time_t) : String :=
  "Time: " ++ fmt_02d time.hour ++ ":" ++ fmt_02d time.minute ++ ":" ++ fmt_02d time.second
    ++ " " ++ fmt_02d time.date ++ "/" ++ fmt_02d time.month ++ "/20" ++ fmt_02d time.year

/-- Logs the time. -/
def printTime (time : ds1307_time_t) (s : dryer_state) : dryer_state :=
  emit (.log_time (time_line time)) s

/-! ## Main loop -/

/-- The raw code `uint16_t temp_raw = (data[0] << 8) | data[1]`. -/
def temp_raw_of (data : Fin 6 → Nat) : Nat :=
  ((data 0 <<< 8) ||| data 1) % 65536

/-- The transfer function `-45 + 175 * ((float)temp_raw / 65535.0)`. -/
def temperature_of_raw (temp_raw : Nat) : ℚ :=
  -45 + 175 * ((temp_raw : ℚ) / 65535)

/-- The mode and threshold branch of the loop body: one thermostat evaluation. -/
def thermostat_update (temperature : ℚ) (s : dryer_state) : Option dryer_state :=
  if s.active_mode ≠ MODE_NONE then
    match profile_at s.active_mode with
    | none => none
    | some p =>
      let target := p.target_temp
      let s1 :=
        if temperature ≥ target then heater_off s
        else if temperature < target - 2 then heater_on s
        else s
      some (emit (.log_target target p.name) s1)
  else
    some (heater_off s)

/-- How one pass through the body of the `while (1)` loop ends. -/
inductive loop_outcome where
  /-- The body reached its end or its `continue`; the loop goes on. -/
  | continued (now : ds1307_time_t) (s : dryer_state)
  /-- The check `ESP_ERROR_CHECK` failed and aborted the process. -/
  | aborted (s : dryer_state)
  /-- The body accessed the profile table out of bounds. -/
  | undefined

/-- One pass through the body of the `while (1)` loop of `app_main`, given the outcomes of
the clock transaction and of the sensor transaction. -/
def app_main_iteration (rtc : i2c_result 7) (sht : i2c_result 6)
    (now : ds1307_time_t) (s : dryer_state) : loop_outcome :=
  match get_time_from_ds1307 rtc now s with
  | (err, now1, s1) =>
    if err ≠ ESP_OK then .aborted s1
    else
      let s2 := printTime now1 s1
      let s3 := emit (.i2c_write_read SHT30_SENSOR_ADDR [0x2C, 0x06] 6) s2
      let ret := sht.ret
      if ret ≠ ESP_OK then
        .continued now1 (emit (.task_delay 2000) (emit (.log_sht30_error ret) s3))
      else
        let temp_raw := temp_raw_of sht.data
        let temperature := temperature_of_raw temp_raw
        let s4 := emit (.log_temperature temperature) s3
        match thermostat_update temperature s4 with
        | none => .undefined
        | some s5 => .continued now1 (emit (.task_delay 3000) s5)

/-- Consecutive passes through the loop body, one per pair of transaction outcomes; stops
at the first pass that does not continue. -/
def app_main_loop :
    List (i2c_result 7 × i2c_result 6) → ds1307_time_t → dryer_state → loop_outcome
  | [], now, s => .continued now s
  | (rtc, sht) :: rest, now, s =>
    match app_main_iteration rtc sht now s with
    | .continued now1 s1 => app_main_loop rest now1 s1
    | .aborted s1 => .aborted s1
    | .undefined => .undefined

/-- The heater state after each of a sequence of thermostat evaluations. -/
def thermostat_run : List ℚ → dryer_state → Option (List Bool)
  | [], _ => some []
  | t :: ts, s =>
    match thermostat_update t s with
    | none => none
    | some s1 => (thermostat_run ts s1).map fun hs => s1.heater_state :: hs

/-- The error code carried by a sensor error log line; `none` for every other effect. -/
def effect_t.sht30_error_code : effect_t → Option esp_err_t
  | .log_sht30_error ret => some ret
  | _ => none

/-- The effects of the sensor decode and thermostat part of the loop body: the temperature
and target log lines and the two heater log lines. -/
def effect_t.is_thermostat : effect_t → Bool
  | .log_temperature _ => true
  | .log_target _ _ => true
  | .log_heater_on => true
  | .log_heater_off => true
  | _ => false

/-- The two heater log lines. -/
def effect_t.is_heater : effect_t → Bool
  | .log_heater_on => true
  | .log_heater_off => true
  | _ => false

/-- The heater log line that belongs to a change of `heater_state` from `before` to
`after`: none when the two are equal. -/
def edge_log : Bool → Bool → List effect_t
  | false, true => [.log_heater_on]
  | true, false => [.log_heater_off]
  | _, _ => []

/-- The number of positions at which a sequence of heater states changes value. -/
def count_changes : List Bool → Nat
  | a :: b :: rest => (if a = b then 0 else 1) + count_changes (b :: rest)
  | _ => 0

/-- Consecutive thermostat evaluations.  Each entry gives the profile found in
`active_mode` at that evaluation (the menu task may have changed it in between) and the
temperature reading.  Returns the heater state after each evaluation and the last state. -/
def thermostat_evals :
    List (drying_mode_t × ℚ) → dryer_state → Option (List Bool × dryer_state)
  | [], s => some ([], s)
  | (m, t) :: rest, s =>
    match thermostat_update t { s with active_mode := m } with
    | none => none
    | some s1 => (thermostat_evals rest s1).map fun r => (s1.heater_state :: r.1, r.2)

/-- One step of the running system: a pass of the menu task with the integer it scanned,
or a pass of the main loop body with the outcomes of its two bus transactions. -/
inductive step_t where
  /-- One call of `show_mode_menu`. -/
  | menu (scanned : Option Int)
  /-- One pass through the body of the `while (1)` loop of `app_main`. -/
  | iteration (rtc : i2c_result 7) (sht : i2c_result 6)

/-- An interleaving of menu passes and loop passes; stops at the first step that aborts or
is undefined. -/
def run_steps : List step_t → ds1307_time_t → dryer_state → loop_outcome
  | [], now, s => .continued now s
  | .menu scanned :: rest, now, s =>
    match show_mode_menu scanned s with
    | none => .undefined
    | some s1 => run_steps rest now s1
  | .iteration rtc sht :: rest, now, s =>
    match app_main_iteration rtc sht now s with
    | .continued now1 s1 => run_steps rest now1 s1
    | .aborted s1 => .aborted s1
    | .undefined => .undefined

/-- The four menu lines `show_mode_menu` prints, one per heating profile. -/
def menu_lines : List effect_t :=
  [.print_menu_item 1 "PLA" 50, .print_menu_item 2 "ABS" 80,
   .print_menu_item 3 "PETG" 70, .print_menu_item 4 "TPU" 60]

/-- The seven fields of a time value, in the order of the struct. -/
def ds1307_time_t.fields (t : ds1307_time_t) : List Nat :=
  [t.second, t.minute, t.hour, t.day, t.date, t.month, t.year]

/-! ## Basic facts about the state operations -/

@[simp] theorem emit_active_mode (e : effect_t) (s : dryer_state) :
    (emit e s).active_mode = s.active_mode := rfl

@[simp] theorem emit_heater_state (e : effect_t) (s : dryer_state) :
    (emit e s).heater_state = s.heater_state := rfl

@[simp] theorem emit_trace (e : effect_t) (s : dryer_state) :
    (emit e s).trace = s.trace ++ [e] := rfl

@[simp] theorem heater_off_active_mode (s : dryer_state) :
    (heater_off s).active_mode = s.active_mode := by
  unfold heater_off; split <;> rfl

@[simp] theorem heater_on_active_mode (s : dryer_state) :
    (heater_on s).active_mode = s.active_mode := by
  unfold heater_on; split <;> rfl

@[simp] theorem heater_off_heater_state (s : dryer_state) :
    (heater_off s).heater_state = false := by
  unfold heater_off; split
  · rfl
  · simpa using ‹¬ s.heater_state = true›

@[simp] theorem heater_on_heater_state (s : dryer_state) :
    (heater_on s).heater_state = true := by
  unfold heater_on; split
  · rfl
  · simpa using ‹¬ (!s.heater_state) = true›

/-- With a heating profile active, an evaluation returns the state reached by the
threshold branch followed by the target log line. -/
theorem thermostat_update_heating {s : dryer_state} {p : drying_profile_t} (t : ℚ)
    (hne : s.active_mode ≠ MODE_NONE) (hp : profile_at s.active_mode = some p) :
    thermostat_update t s =
      some (emit (.log_target p.target_temp p.name)
        (if t ≥ p.target_temp then heater_off s
         else if t < p.target_temp - 2 then heater_on s
         else s)) := by
  simp [thermostat_update, hne, hp]

/-- With a heating profile active, an evaluation keeps the profile and sets the heater by
the two thresholds. -/
theorem thermostat_update_heating_spec {s : dryer_state} {p : drying_profile_t} (t : ℚ)
    (hne : s.active_mode ≠ MODE_NONE) (hp : profile_at s.active_mode = some p) :
    ∃ s1, thermostat_update t s = some s1 ∧ s1.active_mode = s.active_mode ∧
      s1.heater_state =
        (if t ≥ p.target_temp then false
         else if t < p.target_temp - 2 then true
         else s.heater_state) := by
  refine ⟨_, thermostat_update_heating t hne hp, ?_, ?_⟩
  · split_ifs <;> simp
  · split_ifs <;> simp

/-! ## Thermostat -/

/-- Claim C1, as stated, fails for the PLA profile (target 50): on the readings
55, 49, 47, 51, 50.5 from heater OFF the heater states are OFF, OFF, ON, OFF, OFF, and
not OFF, OFF, ON, ON, OFF; the fourth reading 51 is at or above the target and switches
the heater off. -/
theorem hysteresis_scenario_counterexample :
    thermostat_run [50 + 5, 50 - 1, 50 - 3, 50 + 1, 50 + 1 / 2]
        { active_mode := MODE_PLA, heater_state := false, trace := [] }
      = some [false, false, true, false, false] ∧
    thermostat_run [50 + 5, 50 - 1, 50 - 3, 50 + 1, 50 + 1 / 2]
        { active_mode := MODE_PLA, heater_state := false, trace := [] }
      ≠ some [false, false, true, true, false] := by
  have hp : profile_at MODE_PLA
      = some { mode := MODE_PLA, name := "PLA", target_temp := 50 } := by decide
  have hne : MODE_PLA ≠ MODE_NONE := by decide
  have key : thermostat_run [50 + 5, 50 - 1, 50 - 3, 50 + 1, 50 + 1 / 2]
        { active_mode := MODE_PLA, heater_state := false, trace := [] }
      = some [false, false, true, false, false] := by
    simp only [thermostat_run]
    rw [thermostat_update_heating _ hne hp]
    norm_num [heater_off, heater_on, emit]
    rw [thermostat_update_heating _ hne hp]
    norm_num [heater_off, heater_on, emit]
    rw [thermostat_update_heating _ hne hp]
    norm_num [heater_off, heater_on, emit]
    rw [thermostat_update_heating _ hne hp]
    norm_num [heater_off, heater_on, emit]
    rw [thermostat_update_heating _ hne hp]
    norm_num [heater_off, heater_on, emit]
  refine ⟨key, ?_⟩
  rw [key]
  decide

/-- Claim C1, amended: for every heating profile with target T, from heater OFF the
readings T+5, T-1, T-3, T+1, T+0.5 give the heater states OFF, OFF, ON, OFF, OFF. -/
theorem hysteresis_scenario (m : drying_mode_t) (p : drying_profile_t) (tr : List effect_t)
    (hne : m ≠ MODE_NONE) (hp : profile_at m = some p) :
    thermostat_run
        [p.target_temp + 5, p.target_temp - 1, p.target_temp - 3, p.target_temp + 1,
          p.target_temp + 1 / 2]
        { active_mode := m, heater_state := false, trace := tr }
      = some [false, false, true, false, false] := by
  obtain ⟨s1, e1, m1, h1⟩ := thermostat_update_heating_spec
    (s := { active_mode := m, heater_state := false, trace := tr })
    (p.target_temp + 5) hne hp
  simp only at m1
  obtain ⟨s2, e2, m2, h2⟩ := thermostat_update_heating_spec (s := s1)
    (p.target_temp - 1) (m1 ▸ hne) (m1 ▸ hp)
  rw [m1] at m2
  obtain ⟨s3, e3, m3, h3⟩ := thermostat_update_heating_spec (s := s2)
    (p.target_temp - 3) (m2 ▸ hne) (m2 ▸ hp)
  rw [m2] at m3
  obtain ⟨s4, e4, m4, h4⟩ := thermostat_update_heating_spec (s := s3)
    (p.target_temp + 1) (m3 ▸ hne) (m3 ▸ hp)
  rw [m3] at m4
  obtain ⟨s5, e5, -, h5⟩ := thermostat_update_heating_spec (s := s4)
    (p.target_temp + 1 / 2) (m4 ▸ hne) (m4 ▸ hp)
  have c1 : p.target_temp + 5 ≥ p.target_temp := by linarith
  have c2 : ¬ (p.target_temp - 1 ≥ p.target_temp) := by linarith
  have c2b : ¬ (p.target_temp - 1 < p.target_temp - 2) := by linarith
  have c3 : ¬ (p.target_temp - 3 ≥ p.target_temp) := by linarith
  have c3b : p.target_temp - 3 < p.target_temp - 2 := by linarith
  have c4 : p.target_temp + 1 ≥ p.target_temp := by linarith
  have c5 : p.target_temp + 1 / 2 ≥ p.target_temp := by linarith
  rw [if_pos c1] at h1
  rw [if_neg c2, if_neg c2b, h1] at h2
  rw [if_neg c3, if_pos c3b] at h3
  rw [if_pos c4] at h4
  rw [if_pos c5] at h5
  simp only [thermostat_run, e1, e2, e3, e4, e5, h1, h2, h3, h4, h5, Option.map_some']

/-- The amended hysteresis scenario at the PLA profile (target 50). -/
theorem hysteresis_scenario_witness :
    MODE_PLA ≠ MODE_NONE ∧
    profile_at MODE_PLA = some { mode := MODE_PLA, name := "PLA", target_temp := 50 } ∧
    thermostat_run [50 + 5, 50 - 1, 50 - 3, 50 + 1, 50 + 1 / 2]
        { active_mode := MODE_PLA, heater_state := false, trace := [] }
      = some [false, false, true, false, false] :=
  ⟨by decide, by decide,
    hysteresis_scenario MODE_PLA { mode := MODE_PLA, name := "PLA", target_temp := 50 } []
      (by decide) (by decide)⟩

/-- Claim C2: with a heating profile of target T active, any reading t with t ≥ T leaves
the heater OFF after one evaluation, whatever the heater state was before. -/
theorem upper_threshold_switches_off (s : dryer_state) (p : drying_profile_t) (t : ℚ)
    (hne : s.active_mode ≠ MODE_NONE) (hp : profile_at s.active_mode = some p)
    (ht : t ≥ p.target_temp) :
    ∃ s1, thermostat_update t s = some s1 ∧ s1.heater_state = false := by
  obtain ⟨s1, e1, -, h1⟩ := thermostat_update_heating_spec t hne hp
  exact ⟨s1, e1, by rw [h1, if_pos ht]⟩

/-- The upper threshold at the ABS profile (target 80), heater ON, reading exactly 80. -/
theorem upper_threshold_switches_off_witness :
    ∃ s1, thermostat_update 80 { active_mode := MODE_ABS, heater_state := true, trace := [] }
        = some s1 ∧ s1.heater_state = false :=
  upper_threshold_switches_off { active_mode := MODE_ABS, heater_state := true, trace := [] }
    { mode := MODE_ABS, name := "ABS", target_temp := 80 } 80
    (by decide) (by decide) (by norm_num)

/-- Claim C3: with a heating profile of target T active, any reading t with t < T - 2
leaves the heater ON after one evaluation, whatever the heater state was before. -/
theorem lower_threshold_switches_on (s : dryer_state) (p : drying_profile_t) (t : ℚ)
    (hne : s.active_mode ≠ MODE_NONE) (hp : profile_at s.active_mode = some p)
    (ht : t < p.target_temp - 2) :
    ∃ s1, thermostat_update t s = some s1 ∧ s1.heater_state = true := by
  obtain ⟨s1, e1, -, h1⟩ := thermostat_update_heating_spec t hne hp
  have hge : ¬ (t ≥ p.target_temp) := by linarith
  exact ⟨s1, e1, by rw [h1, if_neg hge, if_pos ht]⟩

/-- The lower threshold at the PETG profile (target 70), heater OFF, reading 67.9. -/
theorem lower_threshold_switches_on_witness :
    ∃ s1, thermostat_update (679 / 10)
        { active_mode := MODE_PETG, heater_state := false, trace := [] }
        = some s1 ∧ s1.heater_state = true :=
  lower_threshold_switches_on { active_mode := MODE_PETG, heater_state := false, trace := [] }
    { mode := MODE_PETG, name := "PETG", target_temp := 70 } (679 / 10)
    (by decide) (by decide) (by norm_num)

/-- Claim C4: with a heating profile of target T active, any reading t with
T - 2 ≤ t < T leaves both the heater state and the active profile as they were. -/
theorem dead_band_holds (s : dryer_state) (p : drying_profile_t) (t : ℚ)
    (hne : s.active_mode ≠ MODE_NONE) (hp : profile_at s.active_mode = some p)
    (hlo : p.target_temp - 2 ≤ t) (hhi : t < p.target_temp) :
    ∃ s1, thermostat_update t s = some s1 ∧ s1.heater_state = s.heater_state ∧
      s1.active_mode = s.active_mode := by
  obtain ⟨s1, e1, m1, h1⟩ := thermostat_update_heating_spec t hne hp
  have hge : ¬ (t ≥ p.target_temp) := by linarith
  have hlt : ¬ (t < p.target_temp - 2) := by linarith
  exact ⟨s1, e1, by rw [h1, if_neg hge, if_neg hlt], m1⟩

/-- The dead band at the TPU profile (target 60), heater ON, reading exactly 58. -/
theorem dead_band_holds_witness :
    ∃ s1, thermostat_update 58 { active_mode := MODE_TPU, heater_state := true, trace := [] }
        = some s1 ∧ s1.heater_state = true ∧ s1.active_mode = MODE_TPU :=
  dead_band_holds { active_mode := MODE_TPU, heater_state := true, trace := [] }
    { mode := MODE_TPU, name := "TPU", target_temp := 60 } 58
    (by decide) (by decide) (by norm_num) (by norm_num)

/-- Claim C5: with the profile None active, one evaluation leaves the heater OFF for
every reading and every prior heater state. -/
theorem mode_none_forces_off (s : dryer_state) (t : ℚ) (hnone : s.active_mode = MODE_NONE) :
    ∃ s1, thermostat_update t s = some s1 ∧ s1.heater_state = false := by
  refine ⟨heater_off s, ?_, heater_off_heater_state s⟩
  simp [thermostat_update, hnone]

/-- Profile None with the heater ON and a reading of -10: the heater goes OFF. -/
theorem mode_none_forces_off_witness :
    ∃ s1, thermostat_update (-10)
        { active_mode := MODE_NONE, heater_state := true, trace := [] }
        = some s1 ∧ s1.heater_state = false :=
  mode_none_forces_off { active_mode := MODE_NONE, heater_state := true, trace := [] } (-10) rfl

/-! ## BCD codec -/

/-- Claim C6: decoding the BCD encoding of n gives n back for every n from 0 to 99, both
functions computed with their 8-bit result. -/
theorem bcd_round_trip (n : Nat) (hn : n ≤ 99) : bcd_to_dec (dec_to_bcd n) = n := by
  interval_cases n <;> rfl

/-- The round trip at 99, the largest two-digit value (encoded as 0x99). -/
theorem bcd_round_trip_witness :
    99 ≤ 99 ∧ dec_to_bcd 99 = 0x99 ∧ bcd_to_dec (dec_to_bcd 99) = 99 :=
  ⟨by decide, by decide, bcd_round_trip 99 (by decide)⟩

/-! ## Clock decode -/

/-- Claim C7: after a successful transaction returning the register bytes b[0..6],
`get_time_from_ds1307` returns ESP_OK with second = bcd_to_dec(b[0] & 0x7F) and minute,
hour, weekday, day of month, month, year = bcd_to_dec of b[1], ..., b[6].  For the bytes
0x30, 0x45, 0x23, 0x03, 0x15, 0x06, 0x24 this is 23:45:30 on weekday 3, day 15, month 6,
year 24, which `printTime` shows as 2024. -/
theorem get_time_from_ds1307_decodes (bus : i2c_result 7) (time : ds1307_time_t)
    (s : dryer_state) (_hwf : bus.wf) (hok : bus.ret = ESP_OK) :
    (get_time_from_ds1307 bus time s).1 = ESP_OK ∧
    (get_time_from_ds1307 bus time s).2.1 =
      { second := bcd_to_dec (bus.data 0 &&& 0x7F),
        minute := bcd_to_dec (bus.data 1),
        hour := bcd_to_dec (bus.data 2),
        day := bcd_to_dec (bus.data 3),
        date := bcd_to_dec (bus.data 4),
        month := bcd_to_dec (bus.data 5),
        year := bcd_to_dec (bus.data 6) } ∧
    (bus.data = ![0x30, 0x45, 0x23, 0x03, 0x15, 0x06, 0x24] →
      (get_time_from_ds1307 bus time s).2.1 =
        { second := 30, minute := 45, hour := 23, day := 3, date := 15, month := 6,
          year := 24 } ∧
      time_line (get_time_from_ds1307 bus time s).2.1 = "Time: 23:45:30 15/06/2024") := by
  have hdec : (get_time_from_ds1307 bus time s).2.1 =
      { second := bcd_to_dec (bus.data 0 &&& 0x7F),
        minute := bcd_to_dec (bus.data 1),
        hour := bcd_to_dec (bus.data 2),
        day := bcd_to_dec (bus.data 3),
        date := bcd_to_dec (bus.data 4),
        month := bcd_to_dec (bus.data 5),
        year := bcd_to_dec (bus.data 6) } := by
    simp [get_time_from_ds1307, hok]
  refine ⟨by simp [get_time_from_ds1307, hok], hdec, ?_⟩
  intro hdata
  have hval : (get_time_from_ds1307 bus time s).2.1 =
      { second := 30, minute := 45, hour := 23, day := 3, date := 15, month := 6,
        year := 24 } := by
    rw [hdec, hdata]
    rfl
  refine ⟨hval, ?_⟩
  rw [hval]
  rfl

/-- The clock decode at the snapshot 0x30, 0x45, 0x23, 0x03, 0x15, 0x06, 0x24. -/
theorem get_time_from_ds1307_decodes_witness :
    (get_time_from_ds1307
        { ret := ESP_OK, data := ![0x30, 0x45, 0x23, 0x03, 0x15, 0x06, 0x24] }
        { second := 0, minute := 0, hour := 0, day := 0, date := 0, month := 0, year := 0 }
        initial_state).1 = ESP_OK ∧
    (get_time_from_ds1307
        { ret := ESP_OK, data := ![0x30, 0x45, 0x23, 0x03, 0x15, 0x06, 0x24] }
        { second := 0, minute := 0, hour := 0, day := 0, date := 0, month := 0, year := 0 }
        initial_state).2.1 =
      { second := 30, minute := 45, hour := 23, day := 3, date := 15, month := 6,
        year := 24 } ∧
    time_line
      (get_time_from_ds1307
        { ret := ESP_OK, data := ![0x30, 0x45, 0x23, 0x03, 0x15, 0x06, 0x24] }
        { second := 0, minute := 0, hour := 0, day := 0, date := 0, month := 0, year := 0 }
        initial_state).2.1 = "Time: 23:45:30 15/06/2024" :=
  have h := get_time_from_ds1307_decodes
    { ret := ESP_OK, data := ![0x30, 0x45, 0x23, 0x03, 0x15, 0x06, 0x24] }
    { second := 0, minute := 0, hour := 0, day := 0, date := 0, month := 0, year := 0 }
    initial_state (by intro i; fin_cases i <;> decide) rfl
  ⟨h.1, (h.2.2 rfl).1, (h.2.2 rfl).2⟩

/-! ## Sensor decode -/

/-- Claim C8: the transfer function f(raw) = -45 + 175 * raw / 65535 maps 0 to -45 and
65535 to 130 and is strictly increasing in the raw code. -/
theorem temperature_of_raw_endpoints_monotone (a b : Nat) (hab : a < b) :
    temperature_of_raw 0 = -45 ∧ temperature_of_raw 65535 = 130 ∧
    temperature_of_raw a < temperature_of_raw b := by
  refine ⟨by norm_num [temperature_of_raw], by norm_num [temperature_of_raw], ?_⟩
  unfold temperature_of_raw
  have h : (a : ℚ) < (b : ℚ) := by exact_mod_cast hab
  have h2 : (a : ℚ) / 65535 < (b : ℚ) / 65535 :=
    div_lt_div_of_pos_right h (by norm_num)
  linarith

/-- The transfer function at the two ends of the 16-bit range. -/
theorem temperature_of_raw_endpoints_monotone_witness :
    temperature_of_raw 0 = -45 ∧ temperature_of_raw 65535 = 130 ∧
    temperature_of_raw 0 < temperature_of_raw 65535 :=
  temperature_of_raw_endpoints_monotone 0 65535 (by decide)

/-- For two bytes the composition `(hi << 8) | lo`, narrowed to 16 bits, is
`256 * hi + lo`. -/
theorem temp_raw_of_eq (data : Fin 6 → Nat) (h0 : data 0 < 256) (h1 : data 1 < 256) :
    temp_raw_of data = 256 * data 0 + data 1 := by
  unfold temp_raw_of
  have hor : 2 ^ 8 * data 0 + data 1 = 2 ^ 8 * data 0 ||| data 1 :=
    Nat.mul_add_lt_is_or (by simpa using h1) (data 0)
  rw [Nat.shiftLeft_eq, Nat.mul_comm (data 0) (2 ^ 8), ← hor]
  omega

/-- Claim C9, as stated, fails at its own example: a frame starting 0x66, 0x5A has raw
code 26202 and temperature 109085/4369 = 24.9679..., which is more than 0.005 away from
24.96 (it rounds to 24.97). -/
theorem sensor_frame_decode_counterexample :
    temp_raw_of ![0x66, 0x5A, 0, 0, 0, 0] = 26202 ∧
    temperature_of_raw (temp_raw_of ![0x66, 0x5A, 0, 0, 0, 0]) = 109085 / 4369 ∧
    ¬ (|temperature_of_raw (temp_raw_of ![0x66, 0x5A, 0, 0, 0, 0]) - 24.96| ≤ 0.005) := by
  have hraw : temp_raw_of ![0x66, 0x5A, 0, 0, 0, 0] = 26202 := by decide
  have htemp : temperature_of_raw (temp_raw_of ![0x66, 0x5A, 0, 0, 0, 0]) = 109085 / 4369 := by
    rw [hraw]
    norm_num [temperature_of_raw]
  refine ⟨hraw, htemp, ?_⟩
  rw [htemp, abs_le]
  norm_num

/-- Claim C9, amended: for every 6-byte frame the raw code is 256 * d[0] + d[1], at most
65535, the temperature is -45 + 175 * raw / 65535, and neither depends on bytes 2..5.  A
frame starting 0x66, 0x5A has raw code 26202 and a temperature within 0.005 of 24.97 and
strictly between 24.96 and 24.97. -/
theorem sensor_frame_decode (d d2 : Fin 6 → Nat) (hd : ∀ i, d i < 256)
    (h0 : d2 0 = d 0) (h1 : d2 1 = d 1) :
    temp_raw_of d = 256 * d 0 + d 1 ∧ temp_raw_of d ≤ 65535 ∧
    temperature_of_raw (temp_raw_of d) = -45 + 175 * ((256 * d 0 + d 1 : ℕ) : ℚ) / 65535 ∧
    temp_raw_of d2 = temp_raw_of d ∧
    temperature_of_raw (temp_raw_of d2) = temperature_of_raw (temp_raw_of d) ∧
    (d 0 = 0x66 → d 1 = 0x5A →
      temp_raw_of d = 26202 ∧
      |temperature_of_raw (temp_raw_of d) - 24.97| ≤ 0.005 ∧
      24.96 < temperature_of_raw (temp_raw_of d) ∧
      temperature_of_raw (temp_raw_of d) < 24.97) := by
  have hraw := temp_raw_of_eq d (hd 0) (hd 1)
  have hsame : temp_raw_of d2 = temp_raw_of d := by
    unfold temp_raw_of
    rw [h0, h1]
  refine ⟨hraw, ?_, ?_, hsame, by rw [hsame], ?_⟩
  · have := hd 0
    have := hd 1
    omega
  · rw [hraw]
    unfold temperature_of_raw
    ring
  · intro e0 e1
    have h26202 : temp_raw_of d = 26202 := by rw [hraw, e0, e1]
    rw [h26202]
    refine ⟨rfl, ?_, ?_, ?_⟩
    · rw [abs_le]
      norm_num [temperature_of_raw]
    · norm_num [temperature_of_raw]
    · norm_num [temperature_of_raw]

/-- The sensor decode at two frames that start 0x66, 0x5A and differ in bytes 2..5. -/
theorem sensor_frame_decode_witness :
    temp_raw_of ![0x66, 0x5A, 0x12, 0x34, 0x56, 0x78] = 26202 ∧
    temp_raw_of ![0x66, 0x5A, 0xFF, 0xFF, 0xFF, 0xFF]
      = temp_raw_of ![0x66, 0x5A, 0x12, 0x34, 0x56, 0x78] ∧
    |temperature_of_raw (temp_raw_of ![0x66, 0x5A, 0x12, 0x34, 0x56, 0x78]) - 24.97|
      ≤ 0.005 :=
  have h := sensor_frame_decode ![0x66, 0x5A, 0x12, 0x34, 0x56, 0x78]
    ![0x66, 0x5A, 0xFF, 0xFF, 0xFF, 0xFF] (by intro i; fin_cases i <;> decide) rfl rfl
  ⟨(h.2.2.2.2.2 rfl rfl).1, h.2.2.2.1, (h.2.2.2.2.2 rfl rfl).2.1⟩

/-! ## Sensor outage -/

/-- One pass with a successful clock read and a failed sensor transaction: the pass
continues, the globals keep their values and exactly five effects are added: the clock
transaction, the time line, the sensor transaction, the error line and the 2000 ms delay. -/
theorem app_main_iteration_sensor_failure (rtc : i2c_result 7) (sht : i2c_result 6)
    (now : ds1307_time_t) (s : dryer_state)
    (hrtc : rtc.ret = ESP_OK) (hsht : sht.ret ≠ ESP_OK) :
    ∃ now1 line,
      app_main_iteration rtc sht now s =
        .continued now1
          { s with
            trace := s.trace ++
              [.i2c_write_read DS1307_ADDR [0x00] 7,
               .log_time line,
               .i2c_write_read SHT30_SENSOR_ADDR [0x2C, 0x06] 6,
               .log_sht30_error sht.ret,
               .task_delay 2000] } :=
  ⟨(get_time_from_ds1307 rtc now s).2.1, time_line (get_time_from_ds1307 rtc now s).2.1, by
    simp [app_main_iteration, get_time_from_ds1307, hrtc, hsht, printTime, emit]⟩

/-- Any number of consecutive passes with a successful clock read and a failed sensor
transaction: the loop continues, the globals keep their values, the added effects carry
one sensor error line per pass and no thermostat effect. -/
theorem app_main_loop_sensor_outage (ios : List (i2c_result 7 × i2c_result 6))
    (h : ∀ io ∈ ios, io.1.ret = ESP_OK ∧ io.2.ret ≠ ESP_OK)
    (now : ds1307_time_t) (s : dryer_state) :
    ∃ now1 added,
      app_main_loop ios now s = .continued now1 { s with trace := s.trace ++ added } ∧
      added.filterMap effect_t.sht30_error_code = ios.map (fun io => io.2.ret) ∧
      ∀ e ∈ added, e.is_thermostat = false := by
  induction ios generalizing now s with
  | nil => exact ⟨now, [], by simp [app_main_loop], rfl, by simp⟩
  | cons io rest ih =>
    obtain ⟨rtc, sht⟩ := io
    have hio := h (rtc, sht) (List.mem_cons_self _ _)
    have hrest : ∀ io ∈ rest, io.1.ret = ESP_OK ∧ io.2.ret ≠ ESP_OK :=
      fun io hmem => h io (List.mem_cons_of_mem _ hmem)
    obtain ⟨now0, line, hstep⟩ := app_main_iteration_sensor_failure rtc sht now s hio.1 hio.2
    obtain ⟨now1, added, hloop, herr, hth⟩ := ih hrest now0
      { s with
        trace := s.trace ++
          [.i2c_write_read DS1307_ADDR [0x00] 7,
           .log_time line,
           .i2c_write_read SHT30_SENSOR_ADDR [0x2C, 0x06] 6,
           .log_sht30_error sht.ret,
           .task_delay 2000] }
    refine ⟨now1,
      [.i2c_write_read DS1307_ADDR [0x00] 7,
       .log_time line,
       .i2c_write_read SHT30_SENSOR_ADDR [0x2C, 0x06] 6,
       .log_sht30_error sht.ret,
       .task_delay 2000] ++ added, ?_, ?_, ?_⟩
    · simp only [app_main_loop, hstep, hloop, List.append_assoc]
    · rw [List.filterMap_append, herr]
      rfl
    · intro e he
      rcases List.mem_append.mp he with he | he
      · simp only [List.mem_cons, List.mem_singleton, List.not_mem_nil, or_false] at he
        rcases he with rfl | rfl | rfl | rfl | rfl <;> rfl
      · exact hth e he

/-- Claim C10: five consecutive passes of the loop in which the clock read succeeds and
the sensor transaction fails all continue (no abort), leave heater_state and active_mode
as they were after each pass, and add exactly five sensor error lines, one per pass with
that pass's error code, and no temperature, target or heater line: no thermostat
evaluation runs. -/
theorem sensor_outage_five_cycles (ios : List (i2c_result 7 × i2c_result 6))
    (now : ds1307_time_t) (s : dryer_state) (hlen : ios.length = 5)
    (h : ∀ io ∈ ios, io.1.ret = ESP_OK ∧ io.2.ret ≠ ESP_OK) :
    (∀ k, ∃ nowk sk, app_main_loop (ios.take k) now s = .continued nowk sk ∧
      sk.heater_state = s.heater_state ∧ sk.active_mode = s.active_mode) ∧
    ∃ now1 s1 added,
      app_main_loop ios now s = .continued now1 s1 ∧
      s1.heater_state = s.heater_state ∧ s1.active_mode = s.active_mode ∧
      s1.trace = s.trace ++ added ∧
      added.filterMap effect_t.sht30_error_code = ios.map (fun io => io.2.ret) ∧
      (added.filterMap effect_t.sht30_error_code).length = 5 ∧
      ∀ e ∈ added, e.is_thermostat = false := by
  constructor
  · intro k
    obtain ⟨nowk, added, hloop, -, -⟩ := app_main_loop_sensor_outage (ios.take k)
      (fun io hmem => h io (List.mem_of_mem_take hmem)) now s
    exact ⟨nowk, _, hloop, rfl, rfl⟩
  · obtain ⟨now1, added, hloop, herr, hth⟩ := app_main_loop_sensor_outage ios h now s
    refine ⟨now1, _, added, hloop, rfl, rfl, rfl, herr, ?_, hth⟩
    rw [herr, List.length_map, hlen]

/-- Five NACKed sensor reads (error code -1) from heater ON under the ABS profile. -/
theorem sensor_outage_five_cycles_witness :
    ∃ now1 s1 added,
      app_main_loop
          (List.replicate 5
            ({ ret := ESP_OK, data := ![0x30, 0x45, 0x23, 0x03, 0x15, 0x06, 0x24] },
             { ret := -1, data := ![0, 0, 0, 0, 0, 0] }))
          { second := 0, minute := 0, hour := 0, day := 0, date := 0, month := 0, year := 0 }
          { active_mode := MODE_ABS, heater_state := true, trace := [] }
        = .continued now1 s1 ∧
      s1.heater_state = true ∧ s1.active_mode = MODE_ABS ∧
      s1.trace = [] ++ added ∧
      added.filterMap effect_t.sht30_error_code = [-1, -1, -1, -1, -1] ∧
      (added.filterMap effect_t.sht30_error_code).length = 5 ∧
      ∀ e ∈ added, e.is_thermostat = false :=
  (sensor_outage_five_cycles
    (List.replicate 5
      ({ ret := ESP_OK, data := ![0x30, 0x45, 0x23, 0x03, 0x15, 0x06, 0x24] },
       { ret := -1, data := ![0, 0, 0, 0, 0, 0] }))
    { second := 0, minute := 0, hour := 0, day := 0, date := 0, month := 0, year := 0 }
    { active_mode := MODE_ABS, heater_state := true, trace := [] }
    rfl
    (by
      intro io hmem
      rw [List.eq_of_mem_replicate hmem]
      exact ⟨rfl, by decide⟩)).2

/-! ## Clock failure -/

/-- Claim C11: when the clock transaction returns an error code e other than ESP_OK,
`get_time_from_ds1307` returns exactly e and leaves the caller's time struct as it was,
and the loop pass aborts right there: the only effect added is the clock transaction (no
sensor transaction, no thermostat effect), heater_state and active_mode are unchanged, and
no later pass runs.  Conversely `get_time_from_ds1307` returns ESP_OK exactly when the
transaction succeeded. -/
theorem rtc_failure_is_fatal (rtc : i2c_result 7) (sht : i2c_result 6)
    (rest : List (i2c_result 7 × i2c_result 6)) (now : ds1307_time_t) (s : dryer_state)
    (hfail : rtc.ret ≠ ESP_OK) :
    (get_time_from_ds1307 rtc now s).1 = rtc.ret ∧
    (get_time_from_ds1307 rtc now s).2.1 = now ∧
    app_main_iteration rtc sht now s =
      .aborted { s with trace := s.trace ++ [.i2c_write_read DS1307_ADDR [0x00] 7] } ∧
    app_main_loop ((rtc, sht) :: rest) now s =
      .aborted { s with trace := s.trace ++ [.i2c_write_read DS1307_ADDR [0x00] 7] } ∧
    (∀ e ∈ [effect_t.i2c_write_read DS1307_ADDR [0x00] 7],
      e.is_thermostat = false ∧ ∀ w n, e ≠ .i2c_write_read SHT30_SENSOR_ADDR w n) ∧
    (∀ (bus : i2c_result 7) (time : ds1307_time_t) (s0 : dryer_state),
      (get_time_from_ds1307 bus time s0).1 = ESP_OK ↔ bus.ret = ESP_OK) := by
  have hiter : app_main_iteration rtc sht now s =
      .aborted { s with trace := s.trace ++ [.i2c_write_read DS1307_ADDR [0x00] 7] } := by
    simp [app_main_iteration, get_time_from_ds1307, hfail, emit]
  refine ⟨by simp [get_time_from_ds1307, hfail], by simp [get_time_from_ds1307, hfail],
    hiter, by simp only [app_main_loop, hiter], ?_, ?_⟩
  · intro e he
    rw [List.mem_singleton] at he
    subst he
    refine ⟨rfl, ?_⟩
    intro w n hcontra
    have haddr : DS1307_ADDR = SHT30_SENSOR_ADDR := by
      injection hcontra
    exact absurd haddr (by decide)
  · intro bus time s0
    by_cases hb : bus.ret = ESP_OK
    · simp [get_time_from_ds1307, hb]
    · simp [get_time_from_ds1307, hb]

/-- A NACKed clock read (error code -1) from heater ON under the PLA profile: the pass
aborts with only the clock transaction added. -/
theorem rtc_failure_is_fatal_witness :
    app_main_iteration { ret := -1, data := ![0, 0, 0, 0, 0, 0, 0] }
        { ret := ESP_OK, data := ![0x66, 0x5A, 0, 0, 0, 0] }
        { second := 1, minute := 2, hour := 3, day := 4, date := 5, month := 6, year := 7 }
        { active_mode := MODE_PLA, heater_state := true, trace := [] }
      = .aborted
        { active_mode := MODE_PLA, heater_state := true,
          trace := [.i2c_write_read DS1307_ADDR [0x00] 7] } :=
  (rtc_failure_is_fatal { ret := -1, data := ![0, 0, 0, 0, 0, 0, 0] }
    { ret := ESP_OK, data := ![0x66, 0x5A, 0, 0, 0, 0] } []
    { second := 1, minute := 2, hour := 3, day := 4, date := 5, month := 6, year := 7 }
    { active_mode := MODE_PLA, heater_state := true, trace := [] }
    (by decide)).2.2.1

/-! ## Heater log lines -/

theorem edge_log_filter (a b : Bool) :
    (edge_log a b).filter effect_t.is_heater = edge_log a b := by
  cases a <;> cases b <;> rfl

theorem edge_log_length (a b : Bool) :
    (edge_log a b).length = if a = b then 0 else 1 := by
  cases a <;> cases b <;> rfl

theorem heater_off_trace (s : dryer_state) :
    (heater_off s).trace = s.trace ++ edge_log s.heater_state false := by
  unfold heater_off
  cases h : s.heater_state <;> simp [edge_log, emit]

theorem heater_on_trace (s : dryer_state) :
    (heater_on s).trace = s.trace ++ edge_log s.heater_state true := by
  unfold heater_on
  cases h : s.heater_state <;> simp [edge_log, emit]

/-- Every row of the table is found under its own index. -/
theorem profile_at_valid (m : drying_mode_t) (h0 : 0 ≤ m) (h1 : m < MODE_COUNT) :
    ∃ p, profile_at m = some p ∧ p.mode = m := by
  unfold MODE_COUNT at h1
  interval_cases m <;> exact ⟨_, rfl, rfl⟩

/-- With the profile None active, an evaluation is a call of `heater_off`. -/
theorem thermostat_update_none (t : ℚ) (s : dryer_state) (hm : s.active_mode = MODE_NONE) :
    thermostat_update t s = some (heater_off s) := by
  simp [thermostat_update, hm]

/-- With `active_mode` inside the table an evaluation is defined and keeps the profile. -/
theorem thermostat_update_defined (t : ℚ) (s : dryer_state)
    (h0 : 0 ≤ s.active_mode) (h1 : s.active_mode < MODE_COUNT) :
    ∃ s1, thermostat_update t s = some s1 ∧ s1.active_mode = s.active_mode := by
  by_cases hm : s.active_mode = MODE_NONE
  · exact ⟨heater_off s, by simp [thermostat_update, hm], heater_off_active_mode s⟩
  · obtain ⟨p, hp, -⟩ := profile_at_valid s.active_mode h0 h1
    obtain ⟨s1, e1, m1, -⟩ := thermostat_update_heating_spec t hm hp
    exact ⟨s1, e1, m1⟩

/-- The heater lines one evaluation adds to the trace are exactly the line of the edge it
makes. -/
theorem thermostat_update_trace (t : ℚ) (s s1 : dryer_state)
    (h : thermostat_update t s = some s1) :
    ∃ added, s1.trace = s.trace ++ added ∧
      added.filter effect_t.is_heater = edge_log s.heater_state s1.heater_state := by
  by_cases hm : s.active_mode = MODE_NONE
  · have hs1 : heater_off s = s1 := by simpa [thermostat_update, hm] using h
    subst hs1
    exact ⟨edge_log s.heater_state false, heater_off_trace s, by
      rw [heater_off_heater_state, edge_log_filter]⟩
  · cases hp : profile_at s.active_mode with
    | none => simp [thermostat_update, hm, hp] at h
    | some p =>
      rw [thermostat_update_heating t hm hp] at h
      have hs1 := Option.some.inj h
      subst hs1
      split_ifs
      · refine ⟨edge_log s.heater_state false ++ [.log_target p.target_temp p.name], ?_, ?_⟩
        · rw [emit_trace, heater_off_trace, List.append_assoc]
        · rw [emit_heater_state, heater_off_heater_state, List.filter_append,
            edge_log_filter]
          simp [effect_t.is_heater]
      · refine ⟨edge_log s.heater_state true ++ [.log_target p.target_temp p.name], ?_, ?_⟩
        · rw [emit_trace, heater_on_trace, List.append_assoc]
        · rw [emit_heater_state, heater_on_heater_state, List.filter_append,
            edge_log_filter]
          simp [effect_t.is_heater]
      · refine ⟨[.log_target p.target_temp p.name], rfl, ?_⟩
        rw [emit_heater_state]
        cases s.heater_state <;> rfl

/-- A sequence of evaluations under profiles inside the table is defined, and the number
of heater lines it adds is the number of changes of the heater state. -/
theorem thermostat_evals_heater_lines (evs : List (drying_mode_t × ℚ)) (s : dryer_state)
    (hvalid : ∀ ev ∈ evs, 0 ≤ ev.1 ∧ ev.1 < MODE_COUNT) :
    ∃ hs sN added, thermostat_evals evs s = some (hs, sN) ∧
      sN.trace = s.trace ++ added ∧
      (added.filter effect_t.is_heater).length = count_changes (s.heater_state :: hs) := by
  induction evs generalizing s with
  | nil => exact ⟨[], s, [], rfl, by simp, rfl⟩
  | cons ev rest ih =>
    obtain ⟨m, t⟩ := ev
    have hm := hvalid (m, t) (List.mem_cons_self _ _)
    obtain ⟨s1, e1, -⟩ := thermostat_update_defined t { s with active_mode := m } hm.1 hm.2
    obtain ⟨a1, ht1, hf1⟩ := thermostat_update_trace t _ s1 e1
    obtain ⟨hs, sN, a2, e2, ht2, hf2⟩ :=
      ih s1 (fun ev hmem => hvalid ev (List.mem_cons_of_mem _ hmem))
    refine ⟨s1.heater_state :: hs, sN, a1 ++ a2, ?_, ?_, ?_⟩
    · simp only [thermostat_evals, e1, e2, Option.map_some']
    · rw [ht2, ht1, List.append_assoc]
    · rw [List.filter_append, List.length_append, hf1, hf2, edge_log_length]
      rfl

/-- Claim C12: an evaluation adds a "Heater ON" line exactly when it changes heater_state
from OFF to ON, a "Heater OFF" line exactly when it changes it from ON to OFF, and no
heater line when heater_state is unchanged; over any sequence of evaluations (any profiles
of the table, any temperatures, any starting state) the number of heater lines added
equals the number of heater state changes. -/
theorem heater_logged_once_per_edge (evs : List (drying_mode_t × ℚ)) (s : dryer_state)
    (hvalid : ∀ ev ∈ evs, 0 ≤ ev.1 ∧ ev.1 < MODE_COUNT) :
    (∀ (t : ℚ) (s0 s1 : dryer_state), thermostat_update t s0 = some s1 →
      ∃ added, s1.trace = s0.trace ++ added ∧
        added.filter effect_t.is_heater = edge_log s0.heater_state s1.heater_state) ∧
    ∃ hs sN added, thermostat_evals evs s = some (hs, sN) ∧
      sN.trace = s.trace ++ added ∧
      (added.filter effect_t.is_heater).length = count_changes (s.heater_state :: hs) :=
  ⟨thermostat_update_trace, thermostat_evals_heater_lines evs s hvalid⟩

/-- Four evaluations under PLA, PLA, None, TPU from heater OFF: the heater goes ON, stays
ON, goes OFF, goes ON; three changes and three heater lines. -/
theorem heater_logged_once_per_edge_witness :
    ∃ sN added,
      thermostat_evals [(MODE_PLA, 20), (MODE_PLA, 49), (MODE_NONE, 20), (MODE_TPU, 20)]
          initial_state = some ([true, true, false, true], sN) ∧
      sN.trace = initial_state.trace ++ added ∧
      (added.filter effect_t.is_heater).length = 3 := by
  obtain ⟨hs, sN, added, e, ht, hf⟩ :=
    (heater_logged_once_per_edge
      [(MODE_PLA, 20), (MODE_PLA, 49), (MODE_NONE, 20), (MODE_TPU, 20)] initial_state
      (by
        intro ev hmem
        simp only [List.mem_cons, List.mem_singleton, List.not_mem_nil, or_false] at hmem
        rcases hmem with rfl | rfl | rfl | rfl <;> decide)).2
  have hval : thermostat_evals [(MODE_PLA, 20), (MODE_PLA, 49), (MODE_NONE, 20), (MODE_TPU, 20)]
      initial_state = some ([true, true, false, true],
        { active_mode := MODE_TPU, heater_state := true,
          trace := [.log_heater_on, .log_target 50 "PLA", .log_target 50 "PLA",
            .log_heater_off, .log_heater_on, .log_target 60 "TPU"] }) := by
    have hne1 : MODE_PLA ≠ MODE_NONE := by decide
    have hne4 : MODE_TPU ≠ MODE_NONE := by decide
    have hp1 : profile_at MODE_PLA
        = some { mode := MODE_PLA, name := "PLA", target_temp := 50 } := by decide
    have hp4 : profile_at MODE_TPU
        = some { mode := MODE_TPU, name := "TPU", target_temp := 60 } := by decide
    simp only [thermostat_evals, initial_state]
    rw [thermostat_update_heating _ hne1 hp1]
    norm_num [heater_on, heater_off, emit]
    rw [thermostat_update_heating _ hne1 hp1]
    norm_num [heater_on, heater_off, emit]
    rw [thermostat_update_none _ _ rfl]
    norm_num [heater_on, heater_off, emit]
    rw [thermostat_update_heating _ hne4 hp4]
    norm_num [heater_on, heater_off, emit]
  rw [hval] at e
  obtain ⟨rfl, rfl⟩ := Prod.mk.inj (Option.some.inj e)
  exact ⟨_, added, hval, ht, hf⟩

/-! ## Mode menu -/

/-- The printing loop of the menu stays inside the table and adds the four menu lines. -/
theorem print_menu_items_eq (s : dryer_state) :
    print_menu_items s = some { s with trace := s.trace ++ menu_lines } := by
  have h : print_menu_items s =
      some (emit (.print_menu_item 4 "TPU" 60) (emit (.print_menu_item 3 "PETG" 70)
        (emit (.print_menu_item 2 "ABS" 80) (emit (.print_menu_item 1 "PLA" 50) s)))) := rfl
  rw [h]
  simp [emit, menu_lines]

/-- A selection inside 1 .. MODE_COUNT - 1 is stored and logged with the profile name. -/
theorem show_mode_menu_valid (scanned : Option Int) (s : dryer_state)
    (h1 : 0 < scanned.getD 0) (h2 : scanned.getD 0 < MODE_COUNT) :
    ∃ p, profile_at (scanned.getD 0) = some p ∧ p.mode = scanned.getD 0 ∧
      show_mode_menu scanned s =
        some { active_mode := scanned.getD 0, heater_state := s.heater_state,
               trace := s.trace ++ menu_lines ++
                 [.print_prompt (MODE_COUNT - 1), .log_selected p.name] } := by
  obtain ⟨p, hp, hmode⟩ := profile_at_valid (scanned.getD 0) (le_of_lt h1) h2
  refine ⟨p, hp, hmode, ?_⟩
  simp [show_mode_menu, print_menu_items_eq, h1, h2, hp, emit]

/-- Any other selection only adds the warning. -/
theorem show_mode_menu_invalid (scanned : Option Int) (s : dryer_state)
    (h : ¬ (0 < scanned.getD 0 ∧ scanned.getD 0 < MODE_COUNT)) :
    show_mode_menu scanned s =
      some { s with
             trace := s.trace ++ menu_lines ++
               [.print_prompt (MODE_COUNT - 1), .log_invalid_selection] } := by
  simp only [show_mode_menu, print_menu_items_eq, Option.bind_eq_bind, Option.some_bind,
    gt_iff_lt, if_neg h, Option.pure_def, emit, List.append_assoc, List.cons_append,
    List.nil_append]

/-- Claim C13: for every integer selection s and every prior state, `show_mode_menu` sets
active_mode to s when 1 ≤ s ≤ MODE_COUNT - 1 (no warning), and otherwise (s ≤ 0 or
s ≥ MODE_COUNT, including the 0 left when nothing was parsed) adds one warning and leaves
active_mode as it was; heater_state is unchanged in both cases. -/
theorem menu_selection_validated (scanned : Option Int) (st : dryer_state) :
    ∃ st1 added, show_mode_menu scanned st = some st1 ∧
      st1.heater_state = st.heater_state ∧ st1.trace = st.trace ++ added ∧
      ((1 ≤ scanned.getD 0 ∧ scanned.getD 0 ≤ MODE_COUNT - 1) →
        st1.active_mode = scanned.getD 0 ∧ effect_t.log_invalid_selection ∉ added) ∧
      ((scanned.getD 0 ≤ 0 ∨ MODE_COUNT ≤ scanned.getD 0) →
        st1.active_mode = st.active_mode ∧
        added.count effect_t.log_invalid_selection = 1) := by
  by_cases hv : 0 < scanned.getD 0 ∧ scanned.getD 0 < MODE_COUNT
  · obtain ⟨p, -, -, hmenu⟩ := show_mode_menu_valid scanned st hv.1 hv.2
    refine ⟨_, menu_lines ++ [.print_prompt (MODE_COUNT - 1), .log_selected p.name], hmenu,
      rfl, by simp only [List.append_assoc], ?_, ?_⟩
    · intro _
      refine ⟨rfl, ?_⟩
      simp [menu_lines]
    · intro hout
      exfalso
      rcases hout with hout | hout
      · exact absurd hv.1 (not_lt.mpr hout)
      · exact absurd hv.2 (not_lt.mpr hout)
  · refine ⟨_, menu_lines ++ [.print_prompt (MODE_COUNT - 1), .log_invalid_selection],
      show_mode_menu_invalid scanned st hv, rfl, by simp only [List.append_assoc], ?_, ?_⟩
    · intro hin
      exfalso
      apply hv
      unfold MODE_COUNT at hin ⊢
      omega
    · intro _
      refine ⟨rfl, ?_⟩
      simp [menu_lines]

/-! ## Decoded values -/

/-- On a byte the decode is not truncated. -/
theorem bcd_to_dec_exact (v : Nat) (hv : v < 256) :
    bcd_to_dec v = 10 * (v / 16) + v % 16 := by
  unfold bcd_to_dec
  have hq : v / 16 ≤ 15 := by omega
  have hr : v % 16 ≤ 15 := by omega
  rw [Nat.mod_eq_of_lt (by omega)]
  omega

/-- A byte with both nibbles at most 9 decodes to at most 99. -/
theorem bcd_to_dec_le_99 (v : Nat) (h1 : v / 16 ≤ 9) (h2 : v % 16 ≤ 9) :
    bcd_to_dec v ≤ 99 := by
  unfold bcd_to_dec
  rw [Nat.mod_eq_of_lt (by omega)]
  omega

/-- Masking with 0x7F keeps the low seven bits. -/
theorem and_0x7F (v : Nat) : v &&& 0x7F = v % 128 :=
  Nat.and_pow_two_sub_one_eq_mod v 7

/-- A byte decodes to at most 165. -/
theorem bcd_to_dec_le_165 (v : Nat) (hv : v < 256) : bcd_to_dec v ≤ 165 := by
  rw [bcd_to_dec_exact v hv]
  omega

/-- The decoded time after a successful transaction. -/
theorem get_time_from_ds1307_ok (bus : i2c_result 7) (time : ds1307_time_t)
    (s : dryer_state) (hok : bus.ret = ESP_OK) :
    (get_time_from_ds1307 bus time s).2.1 =
      { second := bcd_to_dec (bus.data 0 &&& 0x7F),
        minute := bcd_to_dec (bus.data 1),
        hour := bcd_to_dec (bus.data 2),
        day := bcd_to_dec (bus.data 3),
        date := bcd_to_dec (bus.data 4),
        month := bcd_to_dec (bus.data 5),
        year := bcd_to_dec (bus.data 6) } := by
  simp [get_time_from_ds1307, hok]

/-- Claim C14, as stated, fails for the snapshot 0x00, 0xFF, 0, 0, 0, 0, 0: the
transaction succeeds and the minute field is 165, outside 0..99. -/
theorem calendar_fields_counterexample :
    (get_time_from_ds1307 { ret := ESP_OK, data := ![0x00, 0xFF, 0, 0, 0, 0, 0] }
        { second := 0, minute := 0, hour := 0, day := 0, date := 0, month := 0, year := 0 }
        initial_state).1 = ESP_OK ∧
    (get_time_from_ds1307 { ret := ESP_OK, data := ![0x00, 0xFF, 0, 0, 0, 0, 0] }
        { second := 0, minute := 0, hour := 0, day := 0, date := 0, month := 0, year := 0 }
        initial_state).2.1.minute = 165 ∧
    ¬ (∀ x ∈ (get_time_from_ds1307 { ret := ESP_OK, data := ![0x00, 0xFF, 0, 0, 0, 0, 0] }
        { second := 0, minute := 0, hour := 0, day := 0, date := 0, month := 0, year := 0 }
        initial_state).2.1.fields, x ≤ 99) := by
  refine ⟨rfl, rfl, ?_⟩
  intro hall
  exact absurd (hall 165 (by decide)) (by decide)

/-- Claim C14, amended: after a successful transaction every field is at most 165 (the
second field at most 85) for every 7-byte snapshot, and every field is in 0..99 when the
bytes are valid packed BCD: each low nibble at most 9 and, apart from byte 0 whose bit 7
is masked off, each high nibble at most 9. -/
theorem calendar_fields_in_range (bus : i2c_result 7) (time : ds1307_time_t)
    (s : dryer_state) (hwf : bus.wf) (hok : bus.ret = ESP_OK) :
    (get_time_from_ds1307 bus time s).2.1.second ≤ 85 ∧
    (∀ x ∈ (get_time_from_ds1307 bus time s).2.1.fields, x ≤ 165) ∧
    ((∀ i, bus.data i % 16 ≤ 9 ∧ (i ≠ 0 → bus.data i / 16 ≤ 9)) →
      ∀ x ∈ (get_time_from_ds1307 bus time s).2.1.fields, x ≤ 99) := by
  rw [get_time_from_ds1307_ok bus time s hok]
  have hsec : bcd_to_dec (bus.data 0 &&& 0x7F) ≤ 85 := by
    rw [and_0x7F, bcd_to_dec_exact _ (by omega)]
    omega
  refine ⟨hsec, ?_, ?_⟩
  · intro x hx
    simp only [ds1307_time_t.fields, List.mem_cons, List.mem_singleton, List.not_mem_nil,
      or_false] at hx
    rcases hx with rfl | rfl | rfl | rfl | rfl | rfl | rfl
    · exact le_trans hsec (by decide)
    · exact bcd_to_dec_le_165 _ (hwf 1)
    · exact bcd_to_dec_le_165 _ (hwf 2)
    · exact bcd_to_dec_le_165 _ (hwf 3)
    · exact bcd_to_dec_le_165 _ (hwf 4)
    · exact bcd_to_dec_le_165 _ (hwf 5)
    · exact bcd_to_dec_le_165 _ (hwf 6)
  · intro hbcd x hx
    simp only [ds1307_time_t.fields, List.mem_cons, List.mem_singleton, List.not_mem_nil,
      or_false] at hx
    rcases hx with rfl | rfl | rfl | rfl | rfl | rfl | rfl
    · exact le_trans hsec (by decide)
    · exact bcd_to_dec_le_99 _ ((hbcd 1).2 (by decide)) (hbcd 1).1
    · exact bcd_to_dec_le_99 _ ((hbcd 2).2 (by decide)) (hbcd 2).1
    · exact bcd_to_dec_le_99 _ ((hbcd 3).2 (by decide)) (hbcd 3).1
    · exact bcd_to_dec_le_99 _ ((hbcd 4).2 (by decide)) (hbcd 4).1
    · exact bcd_to_dec_le_99 _ ((hbcd 5).2 (by decide)) (hbcd 5).1
    · exact bcd_to_dec_le_99 _ ((hbcd 6).2 (by decide)) (hbcd 6).1

/-- The field bounds at the valid BCD snapshot 0xD9, 0x59, 0x23, 0x07, 0x31, 0x12, 0x99,
whose byte 0 has the clock-halt bit set: all fields are in 0..99. -/
theorem calendar_fields_in_range_witness :
    (get_time_from_ds1307
        { ret := ESP_OK, data := ![0xD9, 0x59, 0x23, 0x07, 0x31, 0x12, 0x99] }
        { second := 0, minute := 0, hour := 0, day := 0, date := 0, month := 0, year := 0 }
        initial_state).2.1.fields = [59, 59, 23, 7, 31, 12, 99] ∧
    (∀ x ∈ (get_time_from_ds1307
        { ret := ESP_OK, data := ![0xD9, 0x59, 0x23, 0x07, 0x31, 0x12, 0x99] }
        { second := 0, minute := 0, hour := 0, day := 0, date := 0, month := 0, year := 0 }
        initial_state).2.1.fields, x ≤ 99) :=
  ⟨rfl,
    (calendar_fields_in_range
      { ret := ESP_OK, data := ![0xD9, 0x59, 0x23, 0x07, 0x31, 0x12, 0x99] }
      { second := 0, minute := 0, hour := 0, day := 0, date := 0, month := 0, year := 0 }
      initial_state (by intro i; fin_cases i <;> decide) rfl).2.2
      (by intro i; fin_cases i <;> decide)⟩

/-- Claim C15: for every byte v, well formed BCD or not, `bcd_to_dec` returns
10 * (high nibble) + (low nibble); the value is at most 165, so the 8-bit result is not
truncated, and the function is total. -/
theorem bcd_decode_total_exact (v : Nat) (hv : v < 256) :
    bcd_to_dec v = 10 * (v / 16) + v % 16 ∧ bcd_to_dec v ≤ 165 :=
  ⟨bcd_to_dec_exact v hv, bcd_to_dec_le_165 v hv⟩

/-- The decode at 0xFF, both nibbles 15: the largest value, 165. -/
theorem bcd_decode_total_exact_witness :
    bcd_to_dec 0xFF = 10 * (0xFF / 16) + 0xFF % 16 ∧ bcd_to_dec 0xFF ≤ 165 ∧
    bcd_to_dec 0xFF = 165 :=
  ⟨(bcd_decode_total_exact 0xFF (by decide)).1, (bcd_decode_total_exact 0xFF (by decide)).2,
    rfl⟩

/-- Flipping bit 7 of a byte does not change its low seven bits. -/
theorem xor_0x80_and_0x7F (v : Nat) (hv : v < 256) : (v ^^^ 0x80) &&& 0x7F = v &&& 0x7F := by
  interval_cases v <;> rfl

/-- Claim C16: two successful 7-byte snapshots that differ only in bit 7 of byte 0 (the
clock-halt flag) decode to the same time value, all seven fields equal. -/
theorem clock_halt_flag_ignored (bus1 bus2 : i2c_result 7) (time1 time2 : ds1307_time_t)
    (s1 s2 : dryer_state) (hwf : bus1.wf)
    (hok1 : bus1.ret = ESP_OK) (hok2 : bus2.ret = ESP_OK)
    (hbit : bus2.data 0 = bus1.data 0 ^^^ 0x80)
    (hrest : ∀ i, i ≠ 0 → bus2.data i = bus1.data i) :
    (get_time_from_ds1307 bus1 time1 s1).2.1 = (get_time_from_ds1307 bus2 time2 s2).2.1 := by
  rw [get_time_from_ds1307_ok bus1 time1 s1 hok1, get_time_from_ds1307_ok bus2 time2 s2 hok2,
    hbit, xor_0x80_and_0x7F _ (hwf 0), hrest 1 (by decide), hrest 2 (by decide),
    hrest 3 (by decide), hrest 4 (by decide), hrest 5 (by decide), hrest 6 (by decide)]

/-- The snapshots starting 0x30 and 0xB0 (clock halted), otherwise equal, decode alike. -/
theorem clock_halt_flag_ignored_witness :
    (get_time_from_ds1307
        { ret := ESP_OK, data := ![0x30, 0x45, 0x23, 0x03, 0x15, 0x06, 0x24] }
        { second := 0, minute := 0, hour := 0, day := 0, date := 0, month := 0, year := 0 }
        initial_state).2.1 =
    (get_time_from_ds1307
        { ret := ESP_OK, data := ![0xB0, 0x45, 0x23, 0x03, 0x15, 0x06, 0x24] }
        { second := 9, minute := 9, hour := 9, day := 9, date := 9, month := 9, year := 9 }
        initial_state).2.1 :=
  clock_halt_flag_ignored
    { ret := ESP_OK, data := ![0x30, 0x45, 0x23, 0x03, 0x15, 0x06, 0x24] }
    { ret := ESP_OK, data := ![0xB0, 0x45, 0x23, 0x03, 0x15, 0x06, 0x24] }
    { second := 0, minute := 0, hour := 0, day := 0, date := 0, month := 0, year := 0 }
    { second := 9, minute := 9, hour := 9, day := 9, date := 9, month := 9, year := 9 }
    initial_state initial_state
    (by intro i; fin_cases i <;> decide) rfl rfl rfl
    (by intro i hi; fin_cases i <;> first | exact absurd rfl hi | rfl)

/-- Claim C19: for every byte n the round trip `bcd_to_dec (dec_to_bcd n)` returns n
exactly when n ≤ 159; for n from 160 to 255 the encoding (n / 10) * 16 + n % 10 is at
least 256, is reduced mod 256, and the round trip returns n - 160. -/
theorem bcd_round_trip_domain (n : Nat) (hn : n < 256) :
    (bcd_to_dec (dec_to_bcd n) = n ↔ n ≤ 159) ∧
    (160 ≤ n →
      256 ≤ (n / 10) * 16 + n % 10 ∧
      dec_to_bcd n = (n / 10) * 16 + n % 10 - 256 ∧
      bcd_to_dec (dec_to_bcd n) = n - 160) := by
  have key : ∀ m, m < 256 →
      bcd_to_dec (dec_to_bcd m) = if m ≤ 159 then m else m - 160 := by
    intro m hm
    interval_cases m <;> rfl
  have hkey := key n hn
  constructor
  · constructor
    · intro h
      by_contra hgt
      rw [hkey, if_neg hgt] at h
      omega
    · intro h
      rw [hkey, if_pos h]
  · intro h
    refine ⟨by omega, ?_, ?_⟩
    · unfold dec_to_bcd
      omega
    · rw [hkey, if_neg (by omega)]

/-- The round trip at 200: encoded as 320 mod 256 = 0x40, decoded as 40 = 200 - 160; and
at 159, the last value that survives. -/
theorem bcd_round_trip_domain_witness :
    dec_to_bcd 200 = 0x40 ∧ bcd_to_dec (dec_to_bcd 200) = 200 - 160 ∧
    ¬ (bcd_to_dec (dec_to_bcd 200) = 200) ∧ bcd_to_dec (dec_to_bcd 159) = 159 :=
  ⟨rfl, ((bcd_round_trip_domain 200 (by decide)).2 (by decide)).2.2,
    fun h => absurd ((bcd_round_trip_domain 200 (by decide)).1.mp h) (by decide),
    (bcd_round_trip_domain 159 (by decide)).1.mpr (by decide)⟩

/-! ## The active profile over a run -/

/-- An evaluation that is defined keeps `active_mode`. -/
theorem thermostat_update_active_mode (t : ℚ) (s s1 : dryer_state)
    (h : thermostat_update t s = some s1) : s1.active_mode = s.active_mode := by
  by_cases hm : s.active_mode = MODE_NONE
  · rw [thermostat_update_none t s hm] at h
    rw [← Option.some.inj h, heater_off_active_mode]
  · cases hp : profile_at s.active_mode with
    | none => simp [thermostat_update, hm, hp] at h
    | some p =>
      obtain ⟨s2, e2, m2, -⟩ := thermostat_update_heating_spec t hm hp
      rw [e2] at h
      rw [← Option.some.inj h, m2]

/-- A pass of the loop body with both transactions successful, unfolded up to the
thermostat evaluation. -/
theorem app_main_iteration_success (rtc : i2c_result 7) (sht : i2c_result 6)
    (now : ds1307_time_t) (s : dryer_state)
    (hrtc : rtc.ret = ESP_OK) (hsht : sht.ret = ESP_OK) :
    app_main_iteration rtc sht now s =
      match thermostat_update (temperature_of_raw (temp_raw_of sht.data))
          (emit (.log_temperature (temperature_of_raw (temp_raw_of sht.data)))
            (emit (.i2c_write_read SHT30_SENSOR_ADDR [0x2C, 0x06] 6)
              (printTime (get_time_from_ds1307 rtc now s).2.1
                (emit (.i2c_write_read DS1307_ADDR [0x00] 7) s)))) with
      | none => .undefined
      | some s5 =>
        .continued (get_time_from_ds1307 rtc now s).2.1 (emit (.task_delay 3000) s5) := by
  simp [app_main_iteration, get_time_from_ds1307, hrtc, hsht]

/-- A pass of the loop body that continues or aborts keeps `active_mode`, and with
`active_mode` inside the table it does one of the two. -/
theorem app_main_iteration_active_mode (rtc : i2c_result 7) (sht : i2c_result 6)
    (now : ds1307_time_t) (s : dryer_state)
    (h0 : 0 ≤ s.active_mode) (h1 : s.active_mode < MODE_COUNT) :
    (∃ now1 s1, app_main_iteration rtc sht now s = .continued now1 s1 ∧
      s1.active_mode = s.active_mode) ∨
    (∃ s1, app_main_iteration rtc sht now s = .aborted s1 ∧
      s1.active_mode = s.active_mode) := by
  by_cases hrtc : rtc.ret = ESP_OK
  · left
    by_cases hsht : sht.ret = ESP_OK
    · obtain ⟨s5, e5, m5⟩ := thermostat_update_defined
        (temperature_of_raw (temp_raw_of sht.data))
        (emit (.log_temperature (temperature_of_raw (temp_raw_of sht.data)))
          (emit (.i2c_write_read SHT30_SENSOR_ADDR [0x2C, 0x06] 6)
            (printTime (get_time_from_ds1307 rtc now s).2.1
              (emit (.i2c_write_read DS1307_ADDR [0x00] 7) s)))) h0 h1
      refine ⟨(get_time_from_ds1307 rtc now s).2.1, emit (.task_delay 3000) s5, ?_, ?_⟩
      · rw [app_main_iteration_success rtc sht now s hrtc hsht, e5]
      · rw [emit_active_mode, m5]
        rfl
    · obtain ⟨now1, line, hstep⟩ :=
        app_main_iteration_sensor_failure rtc sht now s hrtc hsht
      exact ⟨now1, _, hstep, rfl⟩
  · right
    exact ⟨{ s with trace := s.trace ++ [.i2c_write_read DS1307_ADDR [0x00] 7] }, by
      simp [app_main_iteration, get_time_from_ds1307, hrtc, emit], rfl⟩

/-- A pass of the loop body that continues has kept `active_mode`, whatever it was. -/
theorem app_main_iteration_keeps_mode (rtc : i2c_result 7) (sht : i2c_result 6)
    (now now1 : ds1307_time_t) (s s1 : dryer_state)
    (h : app_main_iteration rtc sht now s = .continued now1 s1) :
    s1.active_mode = s.active_mode := by
  by_cases hrtc : rtc.ret = ESP_OK
  · by_cases hsht : sht.ret = ESP_OK
    · rw [app_main_iteration_success rtc sht now s hrtc hsht] at h
      cases he : thermostat_update (temperature_of_raw (temp_raw_of sht.data))
          (emit (.log_temperature (temperature_of_raw (temp_raw_of sht.data)))
            (emit (.i2c_write_read SHT30_SENSOR_ADDR [0x2C, 0x06] 6)
              (printTime (get_time_from_ds1307 rtc now s).2.1
                (emit (.i2c_write_read DS1307_ADDR [0x00] 7) s)))) with
      | none => simp [he] at h
      | some s5 =>
        simp only [he, loop_outcome.continued.injEq] at h
        rw [← h.2, emit_active_mode, thermostat_update_active_mode _ _ _ he]
        rfl
    · obtain ⟨now2, line, hstep⟩ :=
        app_main_iteration_sensor_failure rtc sht now s hrtc hsht
      rw [hstep, loop_outcome.continued.injEq] at h
      rw [← h.2]
  · simp [app_main_iteration, get_time_from_ds1307, hrtc] at h

/-- A pass of the menu is always defined; it leaves `active_mode` as it was or stores a
heating profile, 1 .. MODE_COUNT - 1. -/
theorem show_mode_menu_active_mode (scanned : Option Int) (s : dryer_state) :
    ∃ s1, show_mode_menu scanned s = some s1 ∧
      (s1.active_mode = s.active_mode ∨
        (0 < s1.active_mode ∧ s1.active_mode < MODE_COUNT)) := by
  by_cases hv : 0 < scanned.getD 0 ∧ scanned.getD 0 < MODE_COUNT
  · obtain ⟨p, -, -, hmenu⟩ := show_mode_menu_valid scanned s hv.1 hv.2
    exact ⟨_, hmenu, Or.inr hv⟩
  · exact ⟨_, show_mode_menu_invalid scanned s hv, Or.inl rfl⟩

/-- A set of table indices that contains every heating profile is kept by every
interleaving of menu passes and loop passes, and no step of the run is undefined. -/
theorem run_steps_invariant (I : drying_mode_t → Prop)
    (hI : ∀ m, I m → 0 ≤ m ∧ m < MODE_COUNT)
    (hsel : ∀ m, 0 < m → m < MODE_COUNT → I m)
    (steps : List step_t) (now : ds1307_time_t) (s : dryer_state)
    (hs : I s.active_mode) :
    (∃ now1 s1, run_steps steps now s = .continued now1 s1 ∧ I s1.active_mode) ∨
    (∃ s1, run_steps steps now s = .aborted s1 ∧ I s1.active_mode) := by
  induction steps generalizing now s with
  | nil => exact Or.inl ⟨now, s, rfl, hs⟩
  | cons step rest ih =>
    cases step with
    | menu scanned =>
      obtain ⟨s1, e1, hmode⟩ := show_mode_menu_active_mode scanned s
      have hs1 : I s1.active_mode := by
        rcases hmode with hsame | hnew
        · rw [hsame]; exact hs
        · exact hsel _ hnew.1 hnew.2
      simp only [run_steps, e1]
      exact ih now s1 hs1
    | iteration rtc sht =>
      rcases app_main_iteration_active_mode rtc sht now s (hI _ hs).1 (hI _ hs).2 with
        ⟨now1, s1, e1, m1⟩ | ⟨s1, e1, m1⟩
      · simp only [run_steps, e1]
        exact ih now1 s1 (m1 ▸ hs)
      · right
        exact ⟨s1, by simp only [run_steps, e1], m1 ▸ hs⟩

/-- Claim C17: from the initial state, every interleaving of menu passes (any integer
input, or none) and loop passes runs without a table access out of bounds, and the state
it reaches has 0 ≤ active_mode < MODE_COUNT, with `drying_profiles[active_mode]` a row of
the table whose mode field is active_mode. -/
theorem active_mode_in_bounds (steps : List step_t) (now : ds1307_time_t) :
    (∃ now1 s1, run_steps steps now initial_state = .continued now1 s1 ∧
      (0 ≤ s1.active_mode ∧ s1.active_mode < MODE_COUNT ∧
        ∃ p, profile_at s1.active_mode = some p ∧ p.mode = s1.active_mode)) ∨
    (∃ s1, run_steps steps now initial_state = .aborted s1 ∧
      (0 ≤ s1.active_mode ∧ s1.active_mode < MODE_COUNT ∧
        ∃ p, profile_at s1.active_mode = some p ∧ p.mode = s1.active_mode)) := by
  have hinv := run_steps_invariant (fun m => 0 ≤ m ∧ m < MODE_COUNT) (fun _ h => h)
    (fun m h0 h1 => ⟨le_of_lt h0, h1⟩) steps now initial_state (by decide)
  rcases hinv with ⟨now1, s1, e1, h0, h1⟩ | ⟨s1, e1, h0, h1⟩
  · exact Or.inl ⟨now1, s1, e1, h0, h1, profile_at_valid _ h0 h1⟩
  · exact Or.inr ⟨s1, e1, h0, h1, profile_at_valid _ h0 h1⟩

/-- Claim C18: a pass of the menu never stores MODE_NONE: for every input it leaves
active_mode as it was or stores one of 1 .. MODE_COUNT - 1, and a pass of the loop body
keeps active_mode.  Hence, once a heating profile is active, every interleaving of menu
passes and loop passes is defined and ends with a heating profile active: active_mode is
never MODE_NONE again. -/
theorem menu_never_selects_none (steps : List step_t) (now : ds1307_time_t)
    (s : dryer_state) (h0 : 0 < s.active_mode) (h1 : s.active_mode < MODE_COUNT) :
    (∀ (scanned : Option Int) (s0 : dryer_state),
      ∃ s1, show_mode_menu scanned s0 = some s1 ∧
        (s1.active_mode = s0.active_mode ∨ s1.active_mode ≠ MODE_NONE) ∧
        (s0.active_mode ≠ MODE_NONE → s1.active_mode ≠ MODE_NONE)) ∧
    (∀ (rtc : i2c_result 7) (sht : i2c_result 6) (now0 now1 : ds1307_time_t)
        (s0 s1 : dryer_state),
      app_main_iteration rtc sht now0 s0 = .continued now1 s1 →
        s1.active_mode = s0.active_mode) ∧
    ((∃ now1 s1, run_steps steps now s = .continued now1 s1 ∧
        s1.active_mode ≠ MODE_NONE ∧ 0 < s1.active_mode ∧ s1.active_mode < MODE_COUNT) ∨
      (∃ s1, run_steps steps now s = .aborted s1 ∧
        s1.active_mode ≠ MODE_NONE ∧ 0 < s1.active_mode ∧ s1.active_mode < MODE_COUNT)) := by
  refine ⟨?_, app_main_iteration_keeps_mode, ?_⟩
  · intro scanned s0
    obtain ⟨s1, e1, hmode⟩ := show_mode_menu_active_mode scanned s0
    refine ⟨s1, e1, ?_, ?_⟩
    · rcases hmode with hsame | hnew
      · exact Or.inl hsame
      · exact Or.inr (ne_of_gt hnew.1)
    · intro hne
      rcases hmode with hsame | hnew
      · rw [hsame]; exact hne
      · exact ne_of_gt hnew.1
  · have hinv := run_steps_invariant (fun m => 0 < m ∧ m < MODE_COUNT)
      (fun _ h => ⟨le_of_lt h.1, h.2⟩) (fun _ a b => ⟨a, b⟩) steps now s ⟨h0, h1⟩
    rcases hinv with ⟨now1, s1, e1, a, b⟩ | ⟨s1, e1, a, b⟩
    · exact Or.inl ⟨now1, s1, e1, ne_of_gt a, a, b⟩
    · exact Or.inr ⟨s1, e1, ne_of_gt a, a, b⟩

/-- From the PLA profile, the inputs 0, nothing, -3 and MODE_COUNT around a pass of the
loop body with a failed sensor read and a final valid selection of TPU: a heating profile
stays active. -/
theorem menu_never_selects_none_witness :
    (∃ now1 s1,
      run_steps
          [.menu (some 0), .menu none,
           .iteration { ret := ESP_OK, data := ![0x30, 0x45, 0x23, 0x03, 0x15, 0x06, 0x24] }
             { ret := -1, data := ![0, 0, 0, 0, 0, 0] },
           .menu (some (-3)), .menu (some 5), .menu (some 4)]
          { second := 0, minute := 0, hour := 0, day := 0, date := 0, month := 0, year := 0 }
          { active_mode := MODE_PLA, heater_state := false, trace := [] }
        = .continued now1 s1 ∧
      s1.active_mode ≠ MODE_NONE ∧ 0 < s1.active_mode ∧ s1.active_mode < MODE_COUNT) ∨
    (∃ s1,
      run_steps
          [.menu (some 0), .menu none,
           .iteration { ret := ESP_OK, data := ![0x30, 0x45, 0x23, 0x03, 0x15, 0x06, 0x24] }
             { ret := -1, data := ![0, 0, 0, 0, 0, 0] },
           .menu (some (-3)), .menu (some 5), .menu (some 4)]
          { second := 0, minute := 0, hour := 0, day := 0, date := 0, month := 0, year := 0 }
          { active_mode := MODE_PLA, heater_state := false, trace := [] }
        = .aborted s1 ∧
      s1.active_mode ≠ MODE_NONE ∧ 0 < s1.active_mode ∧ s1.active_mode < MODE_COUNT) :=
  (menu_never_selects_none
    [.menu (some 0), .menu none,
     .iteration { ret := ESP_OK, data := ![0x30, 0x45, 0x23, 0x03, 0x15, 0x06, 0x24] }
       { ret := -1, data := ![0, 0, 0, 0, 0, 0] },
     .menu (some (-3)), .menu (some 5), .menu (some 4)]
    { second := 0, minute := 0, hour := 0, day := 0, date := 0, month := 0, year := 0 }
    { active_mode := MODE_PLA, heater_state := false, trace := [] }
    (by decide) (by decide)).2.2

end FilamentDryer
